import Mathlib

/-!
Shallow embedding of the chart-geometry code of the `astro-chorus` repository:
`src/app/api/calculate-chart/route.ts` (sign/degree resolution, aspect
detection, the POST request handler) and the `calculateHousePosition`
helper shared by the chat routes.  JavaScript numbers are modelled as `ℚ`;
`undefined` results of out-of-range array indexing are modelled as `none`.
-/

/-- JavaScript `Math.round x` is `⌊x + 1/2⌋` (ties toward positive infinity);
`Math.round (q * 100) / 100` rounds to two decimal places. -/
def round2 (q : ℚ) : ℚ := (⌊q * 100 + 1/2⌋ : ℤ) / 100

/-- Truncation toward zero, as used by the JavaScript `%` operator. -/
def jsTrunc (q : ℚ) : ℤ := if 0 ≤ q then ⌊q⌋ else ⌈q⌉

/-- JavaScript remainder `a % b` (the result carries the sign of the dividend). -/
def jsMod (a b : ℚ) : ℚ := a - b * (jsTrunc (a / b))

/-- The fixed zodiac-name table `ZODIAC_SIGNS` of `route.ts`. -/
def ZODIAC_SIGNS : List String :=
  ["Aries", "Taurus", "Gemini", "Cancer", "Leo", "Virgo",
   "Libra", "Scorpio", "Sagittarius", "Capricorn", "Aquarius", "Pisces"]

/-- JavaScript array indexing `arr[i]` with an integer index:
`undefined` (here `none`) when the index is out of range. -/
def jsIndex (l : List α) (i : ℤ) : Option α :=
  if 0 ≤ i then l[i.toNat]? else none

/-- Result record of `getSignAndDegree`. -/
structure SignDegree where
  sign : Option String
  degree : ℚ
deriving Repr, DecidableEq

/-- `getSignAndDegree` from `route.ts`:
`signIndex = Math.floor(longitude / 30)`, `degree = longitude % 30`,
returning `ZODIAC_SIGNS[signIndex]` and the degree rounded to 2 decimals. -/
def getSignAndDegree (longitude : ℚ) : SignDegree :=
  let signIndex : ℤ := ⌊longitude / 30⌋
  let degree : ℚ := jsMod longitude 30
  { sign := jsIndex ZODIAC_SIGNS signIndex
    degree := round2 degree }

lemma ZODIAC_SIGNS_length : ZODIAC_SIGNS.length = 12 := rfl

/-- For a longitude in `[0, 360)` the sign lookup lands inside the table. -/
lemma sign_mem_of_range (L : ℚ) (h0 : 0 ≤ L) (h1 : L < 360) :
    ∃ s, (getSignAndDegree L).sign = some s ∧ s ∈ ZODIAC_SIGNS := by
  have hk0 : (0 : ℤ) ≤ ⌊L / 30⌋ := Int.floor_nonneg.mpr (by positivity)
  have hk : ⌊L / 30⌋ < 12 := by
    apply Int.floor_lt.mpr
    rw [div_lt_iff₀ (by norm_num : (0:ℚ) < 30)]
    push_cast
    linarith
  have hidx : (⌊L / 30⌋).toNat < ZODIAC_SIGNS.length := by
    rw [ZODIAC_SIGNS_length]; omega
  refine ⟨ZODIAC_SIGNS[(⌊L / 30⌋).toNat], ?_, List.getElem_mem hidx⟩
  show jsIndex ZODIAC_SIGNS ⌊L / 30⌋ = _
  rw [jsIndex, if_pos hk0]
  exact List.getElem?_eq_getElem hidx

/-- C1: For every longitude `L` in `[0,360)` the sign/degree resolver returns
a sign among the 12 fixed zodiac names, and a longitude exactly at a multiple
of 30 belongs to the sign starting there: `sign 0 = "Aries"`,
`sign 29.99 = "Aries"`, `sign 30 = "Taurus"`, `sign 359.99 = "Pisces"`. -/
theorem getSignAndDegree_sign_valid :
    (∀ L : ℚ, 0 ≤ L → L < 360 →
      ∃ s, (getSignAndDegree L).sign = some s ∧ s ∈ ZODIAC_SIGNS) ∧
    (getSignAndDegree 0).sign = some "Aries" ∧
    (getSignAndDegree (2999/100)).sign = some "Aries" ∧
    (getSignAndDegree 30).sign = some "Taurus" ∧
    (getSignAndDegree (35999/100)).sign = some "Pisces" :=
  ⟨fun L h0 h1 => sign_mem_of_range L h0 h1,
    by norm_num [getSignAndDegree, jsIndex, ZODIAC_SIGNS],
    by norm_num [getSignAndDegree, jsIndex, ZODIAC_SIGNS],
    by norm_num [getSignAndDegree, jsIndex, ZODIAC_SIGNS],
    by
      norm_num [getSignAndDegree, jsIndex, ZODIAC_SIGNS]
      rfl⟩

/-- C1 witness: the resolver evaluated at the concrete longitude 45. -/
theorem getSignAndDegree_sign_valid_witness :
    ∃ s, (getSignAndDegree 45).sign = some s ∧ s ∈ ZODIAC_SIGNS :=
  getSignAndDegree_sign_valid.1 45 (by norm_num) (by norm_num)

/-- For a nonnegative dividend, the JavaScript remainder by 30 is the usual
`L - 30 * ⌊L / 30⌋`. -/
lemma jsMod_thirty_eq (L : ℚ) (h0 : 0 ≤ L) :
    jsMod L 30 = L - 30 * ⌊L / 30⌋ := by
  rw [jsMod, jsTrunc, if_pos (by positivity : (0:ℚ) ≤ L / 30)]

lemma round2_nonneg {q : ℚ} (h : 0 ≤ q) : 0 ≤ round2 q := by
  rw [round2]
  have : (0:ℤ) ≤ ⌊q * 100 + 1/2⌋ := Int.floor_nonneg.mpr (by positivity)
  positivity

lemma round2_le_thirty {q : ℚ} (h : q < 30) : round2 q ≤ 30 := by
  rw [round2]
  have h1 : ⌊q * 100 + 1/2⌋ < 3001 := by
    apply Int.floor_lt.mpr
    push_cast
    linarith
  have h2 : (⌊q * 100 + 1/2⌋ : ℚ) ≤ 3000 := by exact_mod_cast Int.lt_add_one_iff.mp h1
  linarith

/-- C4 counterexample: at longitude 29.999 the code rounds the within-sign
degree up to exactly 30, so the returned degree is neither `L - 30⌊L/30⌋`
nor inside `[0, 30)`. -/
theorem getSignAndDegree_degree_counterexample :
    (getSignAndDegree (29999/1000)).degree = 30 ∧
    ¬ ((getSignAndDegree (29999/1000)).degree < 30) ∧
    (getSignAndDegree (29999/1000)).degree ≠
      29999/1000 - 30 * ((⌊(29999/1000 : ℚ) / 30⌋ : ℤ) : ℚ) := by
  norm_num [getSignAndDegree, jsMod, jsTrunc, round2]

/-- C4 (amended): for every longitude in `[0,360)` the returned degree is
`(L - 30⌊L/30⌋)` rounded to 2 decimal places, and lies in the closed
interval `[0, 30]` (the upper end is attained by rounding, e.g. at 29.999). -/
theorem getSignAndDegree_degree_spec :
    ∀ L : ℚ, 0 ≤ L → L < 360 →
      (getSignAndDegree L).degree = round2 (L - 30 * ⌊L / 30⌋) ∧
      0 ≤ (getSignAndDegree L).degree ∧ (getSignAndDegree L).degree ≤ 30 := by
  intro L h0 _
  have hdeg : (getSignAndDegree L).degree = round2 (L - 30 * ⌊L / 30⌋) := by
    show round2 (jsMod L 30) = _
    rw [jsMod_thirty_eq L h0]
  have hfr : L - 30 * ⌊L / 30⌋ = 30 * Int.fract (L / 30) := by
    rw [Int.fract]
    ring
  have hfr0 : (0:ℚ) ≤ L - 30 * ⌊L / 30⌋ := by
    rw [hfr]
    have := Int.fract_nonneg (L / 30)
    linarith
  have hfr1 : L - 30 * ⌊L / 30⌋ < 30 := by
    rw [hfr]
    have := Int.fract_lt_one (L / 30)
    linarith
  exact ⟨hdeg, hdeg ▸ round2_nonneg hfr0, hdeg ▸ round2_le_thirty hfr1⟩

/-- C4 witness: the amended degree property at the concrete longitude 45. -/
theorem getSignAndDegree_degree_spec_witness :
    (getSignAndDegree 45).degree = round2 (45 - 30 * ⌊(45:ℚ) / 30⌋) ∧
    0 ≤ (getSignAndDegree 45).degree ∧ (getSignAndDegree 45).degree ≤ 30 :=
  getSignAndDegree_degree_spec 45 (by norm_num) (by norm_num)

/-- C5 counterexample: at longitude exactly 360 the sign index is 12, the
table lookup is out of range and no zodiac name is returned — there is no
clamp into `[0,11]`. -/
theorem getSignAndDegree_360_counterexample :
    ¬ ∃ s, (getSignAndDegree 360).sign = some s ∧ s ∈ ZODIAC_SIGNS := by
  have h : (getSignAndDegree 360).sign = none := by
    show jsIndex ZODIAC_SIGNS ⌊(360:ℚ) / 30⌋ = none
    norm_num [jsIndex, ZODIAC_SIGNS]
  rw [h]
  rintro ⟨s, hs, -⟩
  exact Option.noConfusion hs

/-- C5 (amended): the code performs no clamping of the sign index: at
longitude exactly 360 the lookup is out of range and yields no sign
(`undefined`); only for longitudes in `[0,360)` is the returned sign
defined. -/
theorem getSignAndDegree_no_clamp :
    (getSignAndDegree 360).sign = none ∧
    (∀ L : ℚ, 0 ≤ L → L < 360 → ((getSignAndDegree L).sign).isSome = true) := by
  constructor
  · show jsIndex ZODIAC_SIGNS ⌊(360:ℚ) / 30⌋ = none
    norm_num [jsIndex, ZODIAC_SIGNS]
  · intro L h0 h1
    obtain ⟨s, hs, -⟩ := sign_mem_of_range L h0 h1
    rw [hs]
    rfl

/-- C5 witness: the definedness part of the amended claim at longitude 100. -/
theorem getSignAndDegree_no_clamp_witness :
    ((getSignAndDegree 100).sign).isSome = true :=
  getSignAndDegree_no_clamp.2 100 (by norm_num) (by norm_num)

/-- Entry of the fixed aspect-type table of `calculateAspects`. -/
structure AspectType where
  name : String
  degrees : ℚ
  orb : ℚ
deriving Repr, DecidableEq

/-- The fixed aspect table of `route.ts`, in its scan (priority) order. -/
def aspectTypes : List AspectType :=
  [⟨"Conjunction", 0, 8⟩, ⟨"Opposition", 180, 8⟩, ⟨"Trine", 120, 8⟩,
   ⟨"Square", 90, 8⟩, ⟨"Sextile", 60, 6⟩, ⟨"Quincunx", 150, 3⟩]

/-- A body placement as consumed by `calculateAspects`: name and longitude. -/
structure PlanetPos where
  name : String
  longitude : ℚ
deriving Repr, DecidableEq

/-- An entry of the aspect list produced by `calculateAspects`. -/
structure Aspect where
  planet1 : String
  planet2 : String
  aspect : String
  orb : ℚ
  exactDegrees : ℚ
deriving Repr, DecidableEq

/-- The shortest-arc separation of two longitudes:
`diff = |l1 - l2|; if diff > 180 then 360 - diff`. -/
def shortDiff (l1 l2 : ℚ) : ℚ :=
  let d := |l1 - l2|
  if d > 180 then 360 - d else d

/-- The inner scan of `calculateAspects` for one pair: the first table entry
whose ideal angle is within its orb threshold of the separation produces the
recorded aspect (orb rounded to two decimals); otherwise nothing. -/
def detectAspect (p1 p2 : PlanetPos) : Option Aspect :=
  let diff := shortDiff p1.longitude p2.longitude
  (aspectTypes.find? (fun t => decide (|diff - t.degrees| ≤ t.orb))).map
    (fun t => { planet1 := p1.name, planet2 := p2.name, aspect := t.name,
                orb := round2 |diff - t.degrees|, exactDegrees := t.degrees })

/-- Enumeration order of the double loop `i < j` of `calculateAspects`. -/
def pairs : List α → List (α × α)
  | [] => []
  | x :: xs => xs.map (fun y => (x, y)) ++ pairs xs

/-- The unsorted aspect list accumulated by the double loop. -/
def rawAspects (planets : List PlanetPos) : List Aspect :=
  (pairs planets).filterMap (fun pq => detectAspect pq.1 pq.2)

/-- Comparison used by the final `aspects.sort((a, b) => a.orb - b.orb)`:
JavaScript's sort is stable, so a stable merge sort by `orb ≤` models it. -/
def aspectLE (a b : Aspect) : Bool := decide (a.orb ≤ b.orb)

/-- `calculateAspects` from `route.ts`. -/
def calculateAspects (planets : List PlanetPos) : List Aspect :=
  (rawAspects planets).mergeSort aspectLE

/-- C2: per pair the detector computes the shortest-arc separation, scans the
table in the priority order Conjunction, Opposition, Trine, Square, Sextile,
Quincunx, records for the first entry within threshold exactly one aspect
whose orb is the deviation rounded to 2 decimals, and records nothing when no
entry matches; bodies at 10° and 11° yield a Conjunction with orb 1. -/
theorem calculateAspects_pair_scan :
    aspectTypes.map (fun t => t.name) =
      ["Conjunction", "Opposition", "Trine", "Square", "Sextile", "Quincunx"] ∧
    (∀ p1 p2 : PlanetPos,
      (detectAspect p1 p2 = none ↔
        ∀ t ∈ aspectTypes,
          ¬ (|shortDiff p1.longitude p2.longitude - t.degrees| ≤ t.orb)) ∧
      (∀ a : Aspect, detectAspect p1 p2 = some a ↔
        ∃ t pre post, aspectTypes = pre ++ t :: post ∧
          |shortDiff p1.longitude p2.longitude - t.degrees| ≤ t.orb ∧
          (∀ u ∈ pre,
            ¬ (|shortDiff p1.longitude p2.longitude - u.degrees| ≤ u.orb)) ∧
          a = { planet1 := p1.name, planet2 := p2.name, aspect := t.name,
                orb := round2 |shortDiff p1.longitude p2.longitude - t.degrees|,
                exactDegrees := t.degrees })) ∧
    calculateAspects [⟨"A", 10⟩, ⟨"B", 11⟩] =
      [{ planet1 := "A", planet2 := "B", aspect := "Conjunction",
         orb := 1, exactDegrees := 0 }] := by
  refine ⟨rfl, ?_, ?_⟩
  · intro p1 p2
    constructor
    · rw [detectAspect, Option.map_eq_none', List.find?_eq_none]
      simp
    · intro a
      rw [detectAspect, Option.map_eq_some']
      constructor
      · rintro ⟨t, hfind, rfl⟩
        obtain ⟨hpt, pre, post, hsplit, hpre⟩ := List.find?_eq_some.mp hfind
        refine ⟨t, pre, post, hsplit, by simpa using hpt, ?_, rfl⟩
        intro u hu
        have := hpre u hu
        simpa using this
      · rintro ⟨t, pre, post, hsplit, ht, hpre, rfl⟩
        refine ⟨t, ?_, rfl⟩
        apply List.find?_eq_some.mpr
        refine ⟨by simpa using ht, pre, post, hsplit, ?_⟩
        intro u hu
        simpa using hpre u hu
  · have h1 : detectAspect ⟨"A", 10⟩ ⟨"B", 11⟩ =
        some { planet1 := "A", planet2 := "B", aspect := "Conjunction",
               orb := 1, exactDegrees := 0 } := by
      norm_num [detectAspect, shortDiff, aspectTypes, round2, List.find?]
    simp [calculateAspects, rawAspects, pairs, h1]

/-- C2 witness: the first-match characterization instantiated at the
concrete pair (10°, 11°), whose scan stops at Conjunction. -/
theorem calculateAspects_pair_scan_witness :
    detectAspect ⟨"A", 10⟩ ⟨"B", 11⟩ =
      some { planet1 := "A", planet2 := "B", aspect := "Conjunction",
             orb := 1, exactDegrees := 0 } ∧
    (detectAspect ⟨"A", 10⟩ ⟨"B", 11⟩ =
      some { planet1 := "A", planet2 := "B", aspect := "Conjunction",
             orb := 1, exactDegrees := 0 } ↔
      ∃ t pre post, aspectTypes = pre ++ t :: post ∧
        |shortDiff 10 11 - t.degrees| ≤ t.orb ∧
        (∀ u ∈ pre, ¬ (|shortDiff 10 11 - u.degrees| ≤ u.orb)) ∧
        ({ planet1 := "A", planet2 := "B", aspect := "Conjunction",
           orb := 1, exactDegrees := 0 } : Aspect) =
          { planet1 := "A", planet2 := "B", aspect := t.name,
            orb := round2 |shortDiff 10 11 - t.degrees|,
            exactDegrees := t.degrees }) := by
  have h := (calculateAspects_pair_scan.2.1 ⟨"A", 10⟩ ⟨"B", 11⟩).2
    { planet1 := "A", planet2 := "B", aspect := "Conjunction",
      orb := 1, exactDegrees := 0 }
  have hval : detectAspect ⟨"A", 10⟩ ⟨"B", 11⟩ =
      some { planet1 := "A", planet2 := "B", aspect := "Conjunction",
             orb := 1, exactDegrees := 0 } := by
    norm_num [detectAspect, shortDiff, aspectTypes, round2, List.find?]
  exact ⟨hval, h⟩

lemma aspectLE_trans : ∀ a b c : Aspect,
    aspectLE a b → aspectLE b c → aspectLE a c := by
  intro a b c hab hbc
  simp only [aspectLE, decide_eq_true_eq] at *
  exact le_trans hab hbc

lemma aspectLE_total : ∀ a b : Aspect, aspectLE a b || aspectLE b a := by
  intro a b
  simp only [aspectLE, Bool.or_eq_true, decide_eq_true_eq]
  exact le_total a.orb b.orb

/-- C6: the aspect list is sorted ascending by orb, and the sort is stable:
for each orb value, the entries carrying it appear in the same order as in
the unsorted pair-enumeration list. -/
theorem calculateAspects_sorted_stable :
    ∀ planets : List PlanetPos,
      (calculateAspects planets).Pairwise (fun a b => a.orb ≤ b.orb) ∧
      ∀ q : ℚ, (calculateAspects planets).filter (fun a => decide (a.orb = q)) =
          (rawAspects planets).filter (fun a => decide (a.orb = q)) := by
  intro planets
  constructor
  · have h := List.sorted_mergeSort aspectLE_trans aspectLE_total (rawAspects planets)
    exact h.imp (fun hab => by simpa [aspectLE] using hab)
  · intro q
    set p : Aspect → Bool := fun a => decide (a.orb = q) with hp
    set raw := rawAspects planets with hraw
    have hpw : (raw.filter p).Pairwise (fun a b => aspectLE a b) := by
      rw [List.pairwise_filter]
      apply List.pairwise_iff_forall_sublist.mpr
      intro a b _
      intro ha hb
      have ha' : a.orb = q := by simpa [hp] using ha
      have hb' : b.orb = q := by simpa [hp] using hb
      simp [aspectLE, ha', hb']
    have hsub : List.Sublist (raw.filter p) (calculateAspects planets) :=
      List.sublist_mergeSort aspectLE_trans aspectLE_total hpw (List.filter_sublist raw)
    have hsub2 : List.Sublist ((raw.filter p).filter p)
        ((calculateAspects planets).filter p) := hsub.filter p
    rw [List.filter_filter] at hsub2
    have hsame : (fun a => p a && p a) = p := by
      funext a
      rw [Bool.and_self]
    rw [hsame] at hsub2
    have hperm : List.Perm ((calculateAspects planets).filter p) (raw.filter p) :=
      (List.mergeSort_perm raw aspectLE).filter p
    exact ((hsub2.eq_of_length hperm.length_eq.symm)).symm

/-- C6 witness: sortedness and per-orb stability at a concrete input list. -/
theorem calculateAspects_sorted_stable_witness :
    (calculateAspects [⟨"A", 10⟩, ⟨"B", 11⟩, ⟨"C", 190⟩]).Pairwise
      (fun a b => a.orb ≤ b.orb) ∧
    (calculateAspects [⟨"A", 10⟩, ⟨"B", 11⟩, ⟨"C", 190⟩]).filter
        (fun a => decide (a.orb = 1)) =
      (rawAspects [⟨"A", 10⟩, ⟨"B", 11⟩, ⟨"C", 190⟩]).filter
        (fun a => decide (a.orb = 1)) :=
  ⟨(calculateAspects_sorted_stable [⟨"A", 10⟩, ⟨"B", 11⟩, ⟨"C", 190⟩]).1,
   (calculateAspects_sorted_stable [⟨"A", 10⟩, ⟨"B", 11⟩, ⟨"C", 190⟩]).2 1⟩

/-- C7: aspect detection is symmetric: on the two-body lists `[A, B]` and
`[B, A]` the detected aspect types and orbs coincide. -/
theorem calculateAspects_symmetric :
    ∀ A B : PlanetPos,
      (calculateAspects [A, B]).map (fun a => (a.aspect, a.orb)) =
        (calculateAspects [B, A]).map (fun a => (a.aspect, a.orb)) := by
  intro A B
  have hdiff : shortDiff A.longitude B.longitude = shortDiff B.longitude A.longitude := by
    rw [shortDiff, shortDiff, abs_sub_comm]
  have h1 : calculateAspects [A, B] =
      ((detectAspect A B).map (fun a => [a])).getD [] := by
    cases h : detectAspect A B with
    | none => simp [calculateAspects, rawAspects, pairs, h]
    | some a => simp [calculateAspects, rawAspects, pairs, h]
  have h2 : calculateAspects [B, A] =
      ((detectAspect B A).map (fun a => [a])).getD [] := by
    cases h : detectAspect B A with
    | none => simp [calculateAspects, rawAspects, pairs, h]
    | some a => simp [calculateAspects, rawAspects, pairs, h]
  rw [h1, h2, detectAspect, detectAspect, hdiff]
  cases aspectTypes.find?
      (fun t => decide (|shortDiff B.longitude A.longitude - t.degrees| ≤ t.orb)) with
  | none => rfl
  | some t => rfl

/-- C7 witness: symmetry at the concrete pair (10°, 11°). -/
theorem calculateAspects_symmetric_witness :
    (calculateAspects [⟨"A", 10⟩, ⟨"B", 11⟩]).map (fun a => (a.aspect, a.orb)) =
      (calculateAspects [⟨"B", 11⟩, ⟨"A", 10⟩]).map (fun a => (a.aspect, a.orb)) :=
  calculateAspects_symmetric ⟨"A", 10⟩ ⟨"B", 11⟩

/-- A JavaScript number that may be `NaN` (`none`); arithmetic propagates
`NaN` and every comparison involving `NaN` is false. -/
def nSub (a b : Option ℚ) : Option ℚ :=
  match a, b with
  | some x, some y => some (x - y)
  | _, _ => none

def nAbs (a : Option ℚ) : Option ℚ :=
  match a with
  | some x => some |x|
  | none => none

def nGt (a b : Option ℚ) : Bool :=
  match a, b with
  | some x, some y => decide (x > y)
  | _, _ => false

def nLe (a b : Option ℚ) : Bool :=
  match a, b with
  | some x, some y => decide (x ≤ y)
  | _, _ => false

/-- A body placement whose longitude may be `NaN`. -/
structure PlanetPosN where
  name : String
  longitude : Option ℚ
deriving Repr, DecidableEq

/-- The shortest-arc computation of `calculateAspects` on possibly-`NaN`
longitudes. -/
def shortDiffN (l1 l2 : Option ℚ) : Option ℚ :=
  let d := nAbs (nSub l1 l2)
  if nGt d (some 180) then nSub (some 360) d else d

/-- The per-pair scan of `calculateAspects` on possibly-`NaN` longitudes:
a comparison against `NaN` is false, so a `NaN` pair matches no entry. -/
def detectAspectN (p1 p2 : PlanetPosN) : Option Aspect :=
  let diff := shortDiffN p1.longitude p2.longitude
  (aspectTypes.find? (fun t => nLe (nAbs (nSub diff (some t.degrees))) (some t.orb))).map
    (fun t => { planet1 := p1.name, planet2 := p2.name, aspect := t.name,
                orb := round2 ((nAbs (nSub diff (some t.degrees))).getD 0),
                exactDegrees := t.degrees })

/-- `calculateAspects` on possibly-`NaN` longitudes. -/
def calculateAspectsN (planets : List PlanetPosN) : List Aspect :=
  ((pairs planets).filterMap (fun pq => detectAspectN pq.1 pq.2)).mergeSort aspectLE

lemma pairs_length_lt_two {α : Type} (l : List α) (h : l.length < 2) :
    pairs l = [] := by
  match l with
  | [] => rfl
  | [x] => rfl
  | x :: y :: xs =>
    simp at h
    omega

/-- C8: the aspect detector cannot fail: with fewer than 2 bodies it returns
the empty list (in both the exact and the `NaN`-aware model), and a pair one
of whose longitudes is `NaN` matches no table entry and records nothing,
while pairs of well-formed longitudes behave as in the exact model. -/
theorem calculateAspects_total :
    (∀ planets : List PlanetPos, planets.length < 2 → calculateAspects planets = []) ∧
    (∀ planets : List PlanetPosN, planets.length < 2 → calculateAspectsN planets = []) ∧
    (∀ p1 p2 : PlanetPosN, p1.longitude = none ∨ p2.longitude = none →
      detectAspectN p1 p2 = none) ∧
    (∀ (n1 n2 : String) (l1 l2 : ℚ),
      detectAspectN ⟨n1, some l1⟩ ⟨n2, some l2⟩ = detectAspect ⟨n1, l1⟩ ⟨n2, l2⟩) := by
  refine ⟨?_, ?_, ?_, ?_⟩
  · intro planets h
    rw [calculateAspects, rawAspects, pairs_length_lt_two planets h]
    simp
  · intro planets h
    rw [calculateAspectsN, pairs_length_lt_two planets h]
    simp
  · intro p1 p2 h
    have hdiff : shortDiffN p1.longitude p2.longitude = none := by
      rcases h with h | h
      · rcases hp2 : p2.longitude with _ | y <;>
          simp [shortDiffN, h, hp2, nSub, nAbs, nGt]
      · rcases hp1 : p1.longitude with _ | x <;>
          simp [shortDiffN, h, hp1, nSub, nAbs, nGt]
    rw [detectAspectN]
    have hfind : aspectTypes.find?
        (fun t => nLe (nAbs (nSub (shortDiffN p1.longitude p2.longitude) (some t.degrees)))
          (some t.orb)) = none := by
      apply List.find?_eq_none.mpr
      intro t _
      rw [hdiff]
      simp [nSub, nAbs, nLe]
    rw [hfind]
    rfl
  · intro n1 n2 l1 l2
    have hdiff : shortDiffN (some l1) (some l2) = some (shortDiff l1 l2) := by
      rw [shortDiffN, shortDiff, nSub, nAbs, nGt]
      by_cases h : |l1 - l2| > 180 <;> simp [h, nSub]
    rw [detectAspectN, detectAspect]
    simp only [hdiff, nSub, nAbs, nLe, Option.getD_some, decide_eq_true_eq]

/-- C8 witness: a single body yields no aspects, and a `NaN` longitude in a
pair records nothing. -/
theorem calculateAspects_total_witness :
    calculateAspects [⟨"Sun", 10⟩] = [] ∧
    calculateAspectsN [⟨"Sun", none⟩, ⟨"Moon", some 10⟩] =
      ((pairs [(⟨"Sun", none⟩ : PlanetPosN), ⟨"Moon", some 10⟩]).filterMap
        (fun pq => detectAspectN pq.1 pq.2)).mergeSort aspectLE ∧
    detectAspectN ⟨"Sun", none⟩ ⟨"Moon", some 10⟩ = none :=
  ⟨calculateAspects_total.1 [⟨"Sun", 10⟩] (by simp),
   rfl,
   calculateAspects_total.2.2.1 ⟨"Sun", none⟩ ⟨"Moon", some 10⟩ (Or.inl rfl)⟩

/-- The per-index interval test of `calculateHousePosition`
(`src/unnamed/part_001` and `part_002`): with `cur = cusps[i]` and
`next = cusps[(i+1) mod 12]`, a non-wrapping interval (`next > cur`) matches
when `cur ≤ longitude < next`, a wrapping one (`next ≤ cur`) when
`longitude ≥ cur` or `longitude < next`. -/
def houseMatch (longitude : ℚ) (cusps : List ℚ) (i : ℕ) : Bool :=
  let cur := cusps.getD i 0
  let next := cusps.getD ((i + 1) % cusps.length) 0
  if next > cur then decide (cur ≤ longitude) && decide (longitude < next)
  else decide (cur ≤ longitude) || decide (longitude < next)

/-- `calculateHousePosition`: the loop over `i = 0 .. cusps.length - 1`
returns `i + 1` for the first matching interval, and defaults to house 1
when no interval matches. -/
def calculateHousePosition (longitude : ℚ) (houseCusps : List ℚ) : ℕ :=
  match (List.range houseCusps.length).find? (houseMatch longitude houseCusps) with
  | some i => i + 1
  | none => 1

/-- C3: with 12 cusps the house placement resolver always produces a house
number in `[1,12]`; the first index whose interval (non-wrapping or wrapping)
contains the longitude wins; with cusps `[350, 20, 50, …]` a body at 5°
falls in house 1 via the wrap interval `350 → 20`. -/
lemma range_split {n i : ℕ} (hi : i < n) :
    List.range n = List.range i ++ i :: List.range' (i + 1) (n - i - 1) := by
  have e1 : (n - i) + i = n := by omega
  have e2 : (n - i - 1) + 1 = n - i := by omega
  calc List.range n = List.range' 0 n := List.range_eq_range' n
    _ = List.range' 0 ((n - i) + i) := by rw [e1]
    _ = List.range' 0 i ++ List.range' (0 + i) (n - i) :=
        (List.range'_append_1 0 i (n - i)).symm
    _ = List.range' 0 i ++ List.range' i ((n - i - 1) + 1) := by
        rw [Nat.zero_add, e2]
    _ = List.range' 0 i ++ i :: List.range' (i + 1) (n - i - 1) := by
        rw [List.range'_succ]
    _ = List.range i ++ i :: List.range' (i + 1) (n - i - 1) := by
        rw [← List.range_eq_range']

theorem calculateHousePosition_spec :
    (∀ (longitude : ℚ) (cusps : List ℚ), cusps.length = 12 →
      1 ≤ calculateHousePosition longitude cusps ∧
      calculateHousePosition longitude cusps ≤ 12) ∧
    (∀ (longitude : ℚ) (cusps : List ℚ) (i : ℕ), i < cusps.length →
      houseMatch longitude cusps i = true →
      (∀ j, j < i → houseMatch longitude cusps j = false) →
      calculateHousePosition longitude cusps = i + 1) ∧
    calculateHousePosition 5
      [350, 20, 50, 80, 110, 140, 170, 200, 230, 260, 290, 320] = 1 := by
  refine ⟨?_, ?_, ?_⟩
  · intro longitude cusps hlen
    rw [calculateHousePosition]
    cases hf : (List.range cusps.length).find? (houseMatch longitude cusps) with
    | none =>
      show 1 ≤ 1 ∧ 1 ≤ 12
      omega
    | some i =>
      have hi : i ∈ List.range cusps.length := List.mem_of_find?_eq_some hf
      rw [List.mem_range, hlen] at hi
      show 1 ≤ i + 1 ∧ i + 1 ≤ 12
      omega
  · intro longitude cusps i hi hmatch hfirst
    rw [calculateHousePosition]
    have hf : (List.range cusps.length).find? (houseMatch longitude cusps) = some i := by
      apply List.find?_eq_some.mpr
      refine ⟨hmatch, List.range i,
        List.range' (i + 1) (cusps.length - i - 1), range_split hi, ?_⟩
      intro j hj
      rw [List.mem_range] at hj
      simp [hfirst j hj]
    rw [hf]
  · rfl

/-- C3 witness: the range and first-match facts evaluated on the concrete
wrap-around cusp list `[350, 20, 50, …]` at longitude 5°. -/
theorem calculateHousePosition_spec_witness :
    (1 ≤ calculateHousePosition 5
        [350, 20, 50, 80, 110, 140, 170, 200, 230, 260, 290, 320] ∧
      calculateHousePosition 5
        [350, 20, 50, 80, 110, 140, 170, 200, 230, 260, 290, 320] ≤ 12) ∧
    calculateHousePosition 5
        [350, 20, 50, 80, 110, 140, 170, 200, 230, 260, 290, 320] = 0 + 1 :=
  ⟨calculateHousePosition_spec.1 5
      [350, 20, 50, 80, 110, 140, 170, 200, 230, 260, 290, 320] rfl,
   calculateHousePosition_spec.2.1 5
      [350, 20, 50, 80, 110, 140, 170, 200, 230, 260, 290, 320] 0
      (by decide) (by decide) (fun j hj => absurd hj (Nat.not_lt_zero j))⟩

/-- In the split produced by `find?` over `List.range n`, the found index is
the length of the prefix of scanned-and-rejected indices. -/
lemma range_split_index {n j : ℕ} {pre post : List ℕ}
    (hsplit : List.range n = pre ++ j :: post) : j = pre.length := by
  have hlen : n = pre.length + (post.length + 1) := by
    have := congrArg List.length hsplit
    simpa using this
  have h1 : (List.range n)[pre.length]? = some j := by
    rw [hsplit, List.getElem?_append_right (Nat.le_refl pre.length)]
    simp
  have h2 : (List.range n)[pre.length]? = some pre.length := by
    have hlt : pre.length < (List.range n).length := by simp; omega
    rw [List.getElem?_eq_getElem hlt, List.getElem_range]
  rw [h1] at h2
  exact Option.some_inj.mp h2

/-- C9: the house placement resolver is total and never throws: on any cusp
list (malformed ones included) it returns a defined number that is at least
1; the first matching interval wins (any match at index `i` bounds the
result by `i + 1`); and when no interval matches it returns house 1. -/
theorem calculateHousePosition_fallback :
    (∀ (longitude : ℚ) (cusps : List ℚ),
      (∀ i, i < cusps.length → houseMatch longitude cusps i = false) →
      calculateHousePosition longitude cusps = 1) ∧
    (∀ (longitude : ℚ) (cusps : List ℚ),
      1 ≤ calculateHousePosition longitude cusps ∧
      calculateHousePosition longitude cusps ≤ max cusps.length 1) ∧
    (∀ (longitude : ℚ) (cusps : List ℚ) (i : ℕ), i < cusps.length →
      houseMatch longitude cusps i = true →
      calculateHousePosition longitude cusps ≤ i + 1) := by
  refine ⟨?_, ?_, ?_⟩
  · intro longitude cusps hnone
    rw [calculateHousePosition]
    have hf : (List.range cusps.length).find? (houseMatch longitude cusps) = none := by
      apply List.find?_eq_none.mpr
      intro i hi
      rw [List.mem_range] at hi
      simp [hnone i hi]
    rw [hf]
  · intro longitude cusps
    rw [calculateHousePosition]
    cases hf : (List.range cusps.length).find? (houseMatch longitude cusps) with
    | none =>
      show 1 ≤ 1 ∧ 1 ≤ max cusps.length 1
      omega
    | some i =>
      have hi : i ∈ List.range cusps.length := List.mem_of_find?_eq_some hf
      rw [List.mem_range] at hi
      show 1 ≤ i + 1 ∧ i + 1 ≤ max cusps.length 1
      omega
  · intro longitude cusps i hi hmatch
    rw [calculateHousePosition]
    cases hf : (List.range cusps.length).find? (houseMatch longitude cusps) with
    | none =>
      exfalso
      exact absurd hmatch (by
        have := List.find?_eq_none.mp hf i (List.mem_range.mpr hi)
        simpa using this)
    | some j =>
      obtain ⟨-, pre, post, hsplit, hpre⟩ := List.find?_eq_some.mp hf
      have hj : j = pre.length := range_split_index hsplit
      show j + 1 ≤ i + 1
      by_contra hc
      have hij : i < j := by omega
      have hmem : i ∈ pre := by
        have h1 : (List.range cusps.length)[i]? = some i :=
          List.getElem?_eq_getElem (by simpa using hi) |>.trans
            (by rw [List.getElem_range])
        rw [hsplit, List.getElem?_append_left (by omega : i < pre.length)] at h1
        exact List.getElem?_mem h1
      have := hpre i hmem
      rw [hmatch] at this
      simp at this

/-- C9 witness: the empty (malformed) cusp list matches no interval and
falls back to house 1, and the bounds hold there. -/
theorem calculateHousePosition_fallback_witness :
    calculateHousePosition 7 [] = 1 ∧
    (1 ≤ calculateHousePosition 7 [] ∧
      calculateHousePosition 7 [] ≤ max (List.length ([] : List ℚ)) 1) :=
  ⟨calculateHousePosition_fallback.1 7 []
      (fun i hi => absurd hi (by simp)),
   calculateHousePosition_fallback.2.1 7 []⟩

/-- `needle.isPrefixOf` scanned along the haystack: the model of JavaScript
`String.prototype.includes` on the underlying character lists. -/
def listInfix (needle : List Char) : List Char → Bool
  | [] => needle.isEmpty
  | c :: rest => needle.isPrefixOf (c :: rest) || listInfix needle rest

/-- JavaScript `hay.includes sub`. -/
def jsIncludes (hay sub : String) : Bool := listInfix sub.toList hay.toList

/-- The `location` field of the request body: either a plain string or an
object carrying an optional name and optional coordinates. -/
inductive LocVal where
  | str (s : String)
  | obj (name : Option String) (latitude : Option ℚ) (longitude : Option ℚ)
deriving Repr, DecidableEq

/-- The destructured JSON body `{ date, time, location }` of the POST
handler; absent fields are `none` (JavaScript `undefined`). -/
structure ReqBody where
  date : Option String
  time : Option String
  location : Option LocVal
deriving Repr, DecidableEq

/-- JavaScript falsiness of an optional string (`undefined` or `""`). -/
def strFalsy : Option String → Bool
  | none => true
  | some s => decide (s = "")

/-- JavaScript truthiness of an optional number (`undefined`, `NaN` and `0`
are falsy; `NaN` does not arise in the rational model). -/
def numTruthy : Option ℚ → Bool
  | none => false
  | some q => decide (q ≠ 0)

/-- JavaScript falsiness of the `location` value (`undefined` or the empty
string; objects are always truthy). -/
def locFalsy : Option LocVal → Bool
  | none => true
  | some (.str s) => decide (s = "")
  | some (.obj _ _ _) => false

/-- The string handed to the geocoder: `location.name || location`
(an object without a usable name stringifies as "[object Object]"). -/
def geocodeQuery : LocVal → String
  | .str s => s
  | .obj name _ _ =>
    match name with
    | some n => if n = "" then "[object Object]" else n
    | none => "[object Object]"

/-- Resolved coordinates. -/
structure Coords where
  latitude : ℚ
  longitude : ℚ
deriving Repr, DecidableEq

/-- The `if (location.latitude && location.longitude)` branch: coordinates
taken directly from the request when both are truthy, otherwise geocoding
is required. -/
def locCoords : LocVal → Option Coords
  | .str _ => none
  | .obj _ la lo =>
    if numTruthy la && numTruthy lo then some ⟨la.getD 0, lo.getD 0⟩
    else none

/-- A planet as delivered by the external ephemeris API. -/
structure RawPlanet where
  name : String
  longitude : ℚ
  speed : Option ℚ
deriving Repr, DecidableEq

/-- The payload of the external ephemeris API. -/
structure AstroData where
  planets : List RawPlanet
  ascendant : ℚ
  midheaven : ℚ
deriving Repr, DecidableEq

/-- A transformed body placement of the response
(`speed: planet.speed || 1`, `retrograde: planet.speed ? planet.speed < 0 :
false`, plus the derived sign and degree). -/
structure PlanetOut where
  name : String
  longitude : ℚ
  speed : ℚ
  retrograde : Bool
  sign : Option String
  degree : ℚ
deriving Repr, DecidableEq

def transformPlanet (p : RawPlanet) : PlanetOut :=
  let sd := getSignAndDegree p.longitude
  { name := p.name
    longitude := p.longitude
    speed := match p.speed with
      | some s => if s ≠ 0 then s else 1
      | none => 1
    retrograde := match p.speed with
      | some s => if s ≠ 0 then decide (s < 0) else false
      | none => false
    sign := sd.sign
    degree := sd.degree }

/-- `find(p => p.name === exactName) || find(p => p.name.toLowerCase()
.includes(sub))`. -/
def findBody (planets : List PlanetOut) (exactName sub : String) : Option PlanetOut :=
  (planets.find? (fun p => decide (p.name = exactName))).or
    (planets.find? (fun p => jsIncludes p.name.toLower sub))

/-- The fixed human-readable house labels. -/
def houseNames : List String :=
  ["1st House (Self)", "2nd House (Resources)", "3rd House (Communication)",
   "4th House (Home)", "5th House (Creativity)", "6th House (Service)",
   "7th House (Partnership)", "8th House (Transformation)", "9th House (Philosophy)",
   "10th House (Career)", "11th House (Community)", "12th House (Spirituality)"]

/-- The degraded-mode cusp synthesis: `(ascendant + i * 30) % 360` for
`i = 0 .. 11`. -/
def houseCuspsOf (asc : ℚ) : List ℚ :=
  (List.range 12).map (fun i => jsMod (asc + i * 30) 360)

/-- A house record of the response. -/
structure HouseOut where
  number : ℕ
  name : Option String
  cusp : ℚ
  sign : Option String
  degree : ℚ
deriving Repr, DecidableEq

def houseInfoOf (cusps : List ℚ) : List HouseOut :=
  cusps.enum.map (fun (ic : ℕ × ℚ) =>
    { number := ic.1 + 1
      name := jsIndex houseNames ic.1
      cusp := ic.2
      sign := jsIndex ZODIAC_SIGNS ⌊ic.2 / 30⌋
      degree := round2 (jsMod ic.2 30) })

/-- The aggregate astrology reading returned with a 200 response. -/
structure Reading where
  sun : Option PlanetOut
  moon : Option PlanetOut
  mercury : Option PlanetOut
  venus : Option PlanetOut
  mars : Option PlanetOut
  jupiter : Option PlanetOut
  saturn : Option PlanetOut
  uranus : Option PlanetOut
  neptune : Option PlanetOut
  pluto : Option PlanetOut
  northNode : Option PlanetOut
  planets : List PlanetOut
  aspects : List Aspect
  houses : List HouseOut
  ascendant : ℚ
  midheaven : ℚ
  houseCusps : List ℚ
  birthDate : String
  birthTime : String
  birthLocation : LocVal
  birthLatitude : ℚ
  birthLongitude : ℚ
  timezone : String
  chartDescription : String
deriving Repr, DecidableEq

/-- The body of an HTTP response: an error message or a full reading. -/
inductive RespBody where
  | err (msg : String)
  | reading (r : Reading)
deriving Repr, DecidableEq

/-- An HTTP response of the handler. -/
structure Response where
  status : ℕ
  body : RespBody
deriving Repr, DecidableEq

/-- The external calls the handler performs, in order. -/
inductive ExtCall where
  | geocodeCall (q : String)
  | positionsCall (date time : String) (lat lng : ℚ)
deriving Repr, DecidableEq

/-- `generateChartDescription`: the `chart2txt` library call is wrapped in
`try/catch` with a fixed fallback string, so it never fails. -/
def generateChartDescription (chart2txtFn : Except String String) : String :=
  match chart2txtFn with
  | .ok s => s
  | .error _ => "Chart description unavailable"

/-- Assembly of the 200-response reading from the ephemeris data. -/
def buildReading (d t : String) (loc : LocVal) (coords : Coords)
    (astro : AstroData) (desc : String) : Reading :=
  let planetPositions := astro.planets.map transformPlanet
  let houseCusps := houseCuspsOf astro.ascendant
  { sun := findBody planetPositions "Sun" "sun"
    moon := findBody planetPositions "Moon" "moon"
    mercury := findBody planetPositions "Mercury" "mercury"
    venus := findBody planetPositions "Venus" "venus"
    mars := findBody planetPositions "Mars" "mars"
    jupiter := findBody planetPositions "Jupiter" "jupiter"
    saturn := findBody planetPositions "Saturn" "saturn"
    uranus := findBody planetPositions "Uranus" "uranus"
    neptune := findBody planetPositions "Neptune" "neptune"
    pluto := findBody planetPositions "Pluto" "pluto"
    northNode := findBody planetPositions "North Node" "node"
    planets := planetPositions
    aspects := calculateAspects (planetPositions.map (fun p => ⟨p.name, p.longitude⟩))
    houses := houseInfoOf houseCusps
    ascendant := astro.ascendant
    midheaven := astro.midheaven
    houseCusps := houseCusps
    birthDate := d
    birthTime := t
    birthLocation := loc
    birthLatitude := coords.latitude
    birthLongitude := coords.longitude
    timezone := "UTC"
    chartDescription := desc }

/-- The POST handler of `route.ts`: parse failure or any thrown error maps
to a 500 error response via the surrounding `try/catch`; missing parameters
short-circuit to 400 before any external call; otherwise coordinates are
taken from the request or geocoded, the ephemeris is queried, and the full
reading is returned with status 200.  The second component records the
external calls performed, in order. -/
def POST (body : Except String ReqBody)
    (geocode : String → Except String Coords)
    (positions : String → String → ℚ → ℚ → Except String AstroData)
    (chart2txtFn : Except String String) : Response × List ExtCall :=
  match body with
  | .error e => (⟨500, .err ("Failed to calculate astrology chart: " ++ e)⟩, [])
  | .ok req =>
    if strFalsy req.date || strFalsy req.time || locFalsy req.location then
      (⟨400, .err "Missing required parameters: date, time, location"⟩, [])
    else
      let d := req.date.getD ""
      let t := req.time.getD ""
      let loc := req.location.getD (.str "")
      match locCoords loc with
      | some coords =>
        match positions d t coords.latitude coords.longitude with
        | .error e =>
          (⟨500, .err ("Failed to calculate astrology chart: " ++ e)⟩,
           [.positionsCall d t coords.latitude coords.longitude])
        | .ok astro =>
          (⟨200, .reading (buildReading d t loc coords astro
              (generateChartDescription chart2txtFn))⟩,
           [.positionsCall d t coords.latitude coords.longitude])
      | none =>
        match geocode (geocodeQuery loc) with
        | .error e =>
          (⟨500, .err ("Failed to calculate astrology chart: " ++ e)⟩,
           [.geocodeCall (geocodeQuery loc)])
        | .ok coords =>
          match positions d t coords.latitude coords.longitude with
          | .error e =>
            (⟨500, .err ("Failed to calculate astrology chart: " ++ e)⟩,
             [.geocodeCall (geocodeQuery loc),
              .positionsCall d t coords.latitude coords.longitude])
          | .ok astro =>
            (⟨200, .reading (buildReading d t loc coords astro
                (generateChartDescription chart2txtFn))⟩,
             [.geocodeCall (geocodeQuery loc),
              .positionsCall d t coords.latitude coords.longitude])

/-- C10: the chart-calculation POST endpoint validates input before any
computation: a missing `date`, `time` or `location` yields a 400 response
with an error message and no external call; a parse, geocoding or ephemeris
failure yields a 500 error response; every response status is 400, 500 or
200; and a 200 response always carries a complete reading. -/
theorem POST_spec :
    ∀ (body : Except String ReqBody)
      (geocode : String → Except String Coords)
      (positions : String → String → ℚ → ℚ → Except String AstroData)
      (chart2txtFn : Except String String),
      (∀ e, body = Except.error e →
        (POST body geocode positions chart2txtFn).1.status = 500 ∧
        (POST body geocode positions chart2txtFn).2 = []) ∧
      (∀ req, body = Except.ok req →
        (req.date = none ∨ req.time = none ∨ req.location = none) →
        (POST body geocode positions chart2txtFn).1.status = 400 ∧
        (POST body geocode positions chart2txtFn).1.body =
          RespBody.err "Missing required parameters: date, time, location" ∧
        (POST body geocode positions chart2txtFn).2 = []) ∧
      ((POST body geocode positions chart2txtFn).1.status = 400 ∨
       (POST body geocode positions chart2txtFn).1.status = 500 ∨
       (POST body geocode positions chart2txtFn).1.status = 200) ∧
      ((POST body geocode positions chart2txtFn).1.status = 200 →
        ∃ r, (POST body geocode positions chart2txtFn).1.body = RespBody.reading r) ∧
      (∀ q e, ExtCall.geocodeCall q ∈ (POST body geocode positions chart2txtFn).2 →
        geocode q = Except.error e →
        (POST body geocode positions chart2txtFn).1.status = 500) ∧
      (∀ dd tt la lo e,
        ExtCall.positionsCall dd tt la lo ∈ (POST body geocode positions chart2txtFn).2 →
        positions dd tt la lo = Except.error e →
        (POST body geocode positions chart2txtFn).1.status = 500) := by
  intro body geocode positions chart2txtFn
  cases body with
  | error e0 =>
    have hP : POST (Except.error e0) geocode positions chart2txtFn =
        (⟨500, RespBody.err ("Failed to calculate astrology chart: " ++ e0)⟩, []) := rfl
    refine ⟨fun e h => by rw [hP]; exact ⟨rfl, rfl⟩,
      fun req h => absurd h (by simp), ?_, ?_, ?_, ?_⟩
    · right; left; rw [hP]
    · intro h; rw [hP] at h; exact absurd h (by norm_num)
    · intro q e hmem _; rw [hP] at hmem; simp at hmem
    · intro dd tt la lo e hmem _; rw [hP] at hmem; simp at hmem
  | ok req =>
    by_cases hfal : (strFalsy req.date || strFalsy req.time || locFalsy req.location) = true
    · have hP : POST (Except.ok req) geocode positions chart2txtFn =
          (⟨400, RespBody.err "Missing required parameters: date, time, location"⟩, []) := by
        simp [POST, hfal]
      refine ⟨fun e h => Except.noConfusion h, fun req' hr hmiss => ?_, ?_, ?_, ?_, ?_⟩
      · rw [hP]; exact ⟨rfl, rfl, rfl⟩
      · left; rw [hP]
      · intro h; rw [hP] at h; exact absurd h (by norm_num)
      · intro q e hmem _; rw [hP] at hmem; simp at hmem
      · intro dd tt la lo e hmem _; rw [hP] at hmem; simp at hmem
    · have hfal' : (strFalsy req.date || strFalsy req.time || locFalsy req.location) = false := by
        simpa using hfal
      have hnomiss : ¬ (req.date = none ∨ req.time = none ∨ req.location = none) := by
        rcases Bool.or_eq_false_iff.mp hfal' with ⟨h1, h3⟩
        rcases Bool.or_eq_false_iff.mp h1 with ⟨hd, ht⟩
        rintro (h | h | h)
        · rw [h] at hd; simp [strFalsy] at hd
        · rw [h] at ht; simp [strFalsy] at ht
        · rw [h] at h3; simp [locFalsy] at h3
      have base :
          (∀ e : String, (Except.ok req : Except String ReqBody) = Except.error e →
            (POST (Except.ok req) geocode positions chart2txtFn).1.status = 500 ∧
            (POST (Except.ok req) geocode positions chart2txtFn).2 = []) ∧
          (∀ req' : ReqBody, (Except.ok req : Except String ReqBody) = Except.ok req' →
            (req'.date = none ∨ req'.time = none ∨ req'.location = none) →
            (POST (Except.ok req) geocode positions chart2txtFn).1.status = 400 ∧
            (POST (Except.ok req) geocode positions chart2txtFn).1.body =
              RespBody.err "Missing required parameters: date, time, location" ∧
            (POST (Except.ok req) geocode positions chart2txtFn).2 = []) := by
        constructor
        · intro e h; exact Except.noConfusion h
        · intro req' hr hmiss
          have hrr : req = req' := by injection hr
          subst hrr
          exact absurd hmiss hnomiss
      rcases hlc : locCoords (req.location.getD (.str "")) with _ | coords
      · rcases hgeo : geocode (geocodeQuery (req.location.getD (.str ""))) with e1 | coords
        · have hP : POST (Except.ok req) geocode positions chart2txtFn =
              (⟨500, RespBody.err ("Failed to calculate astrology chart: " ++ e1)⟩,
               [.geocodeCall (geocodeQuery (req.location.getD (.str "")))]) := by
            simp [POST, hfal', hlc, hgeo]
          refine ⟨base.1, base.2, ?_, ?_, ?_, ?_⟩
          · right; left; rw [hP]
          · intro h; rw [hP] at h; exact absurd h (by norm_num)
          · intro q e hmem _; rw [hP]
          · intro dd tt la lo e hmem _; rw [hP] at hmem; simp at hmem
        · rcases hps : positions (req.date.getD "") (req.time.getD "")
              coords.latitude coords.longitude with e1 | astro
          · have hP : POST (Except.ok req) geocode positions chart2txtFn =
                (⟨500, RespBody.err ("Failed to calculate astrology chart: " ++ e1)⟩,
                 [.geocodeCall (geocodeQuery (req.location.getD (.str ""))),
                  .positionsCall (req.date.getD "") (req.time.getD "")
                    coords.latitude coords.longitude]) := by
              simp [POST, hfal', hlc, hgeo, hps]
            refine ⟨base.1, base.2, ?_, ?_, ?_, ?_⟩
            · right; left; rw [hP]
            · intro h; rw [hP] at h; exact absurd h (by norm_num)
            · intro q e hmem _; rw [hP]
            · intro dd tt la lo e hmem _; rw [hP]
          · have hP : POST (Except.ok req) geocode positions chart2txtFn =
                (⟨200, RespBody.reading (buildReading (req.date.getD "") (req.time.getD "")
                    (req.location.getD (.str "")) coords astro
                    (generateChartDescription chart2txtFn))⟩,
                 [.geocodeCall (geocodeQuery (req.location.getD (.str ""))),
                  .positionsCall (req.date.getD "") (req.time.getD "")
                    coords.latitude coords.longitude]) := by
              simp [POST, hfal', hlc, hgeo, hps]
            refine ⟨base.1, base.2, ?_, ?_, ?_, ?_⟩
            · right; right; rw [hP]
            · intro _; rw [hP]; exact ⟨_, rfl⟩
            · intro q e hmem hge
              rw [hP] at hmem
              simp at hmem
              rw [hmem] at hge
              rw [hge] at hgeo
              exact Except.noConfusion hgeo
            · intro dd tt la lo e hmem hpe
              rw [hP] at hmem
              simp at hmem
              obtain ⟨h1, h2, h3, h4⟩ := hmem
              rw [h1, h2, h3, h4] at hpe
              rw [hpe] at hps
              exact Except.noConfusion hps
      · rcases hps : positions (req.date.getD "") (req.time.getD "")
            coords.latitude coords.longitude with e1 | astro
        · have hP : POST (Except.ok req) geocode positions chart2txtFn =
              (⟨500, RespBody.err ("Failed to calculate astrology chart: " ++ e1)⟩,
               [.positionsCall (req.date.getD "") (req.time.getD "")
                  coords.latitude coords.longitude]) := by
            simp [POST, hfal', hlc, hps]
          refine ⟨base.1, base.2, ?_, ?_, ?_, ?_⟩
          · right; left; rw [hP]
          · intro h; rw [hP] at h; exact absurd h (by norm_num)
          · intro q e hmem _; rw [hP]
          · intro dd tt la lo e hmem _; rw [hP]
        · have hP : POST (Except.ok req) geocode positions chart2txtFn =
              (⟨200, RespBody.reading (buildReading (req.date.getD "") (req.time.getD "")
                  (req.location.getD (.str "")) coords astro
                  (generateChartDescription chart2txtFn))⟩,
               [.positionsCall (req.date.getD "") (req.time.getD "")
                  coords.latitude coords.longitude]) := by
            simp [POST, hfal', hlc, hps]
          refine ⟨base.1, base.2, ?_, ?_, ?_, ?_⟩
          · right; right; rw [hP]
          · intro _; rw [hP]; exact ⟨_, rfl⟩
          · intro q e hmem _; rw [hP] at hmem; simp at hmem
          · intro dd tt la lo e hmem hpe
            rw [hP] at hmem
            simp at hmem
            obtain ⟨h1, h2, h3, h4⟩ := hmem
            rw [h1, h2, h3, h4] at hpe
            rw [hpe] at hps
            exact Except.noConfusion hps

/-- C10 witness: a request missing its date yields 400 with the fixed error
message and no external calls, for concrete oracles. -/
theorem POST_spec_witness :
    (POST (Except.ok ⟨none, some "12:00", some (.str "Paris")⟩)
        (fun _ => Except.error "g") (fun _ _ _ _ => Except.error "p")
        (Except.error "c")).1.status = 400 ∧
    (POST (Except.ok ⟨none, some "12:00", some (.str "Paris")⟩)
        (fun _ => Except.error "g") (fun _ _ _ _ => Except.error "p")
        (Except.error "c")).1.body =
      RespBody.err "Missing required parameters: date, time, location" ∧
    (POST (Except.ok ⟨none, some "12:00", some (.str "Paris")⟩)
        (fun _ => Except.error "g") (fun _ _ _ _ => Except.error "p")
        (Except.error "c")).2 = [] :=
  (POST_spec (Except.ok ⟨none, some "12:00", some (.str "Paris")⟩)
      (fun _ => Except.error "g") (fun _ _ _ _ => Except.error "p")
      (Except.error "c")).2.1
    ⟨none, some "12:00", some (.str "Paris")⟩ rfl (Or.inl rfl)
